import Mathlib

set_option autoImplicit false

/-!
Shallow embedding of the fluent SQL query builder and model layer of the
`tjo` repository (`src/database/query_builder.go`, `src/database/model.go`),
together with theorems settling the frozen claims about it.

Conventions of the embedding:
* Go strings are Lean `String`s (all inputs of interest are ASCII, so byte
  slicing and rune iteration coincide).
* Go `interface{}` values are the inductive `GoValue`.
* A Go runtime panic is modelled as `none` in an `Option` result; functions
  that cannot panic stay total.
* Go `error` values are their message strings; `nil` error is `none`.
* Database execution is external to this layer: execution-facade operations
  are embedded up to the SQL/parameter pair they hand to the port, and the
  transaction coordinator takes the outcomes of the external begin / callback
  / rollback / commit steps as explicit inputs.
-/

namespace Tjo

/-- Go `interface{}` values as they occur in builder parameters. -/
inductive GoValue where
  | int (n : Int)
  | str (s : String)
  | bool (b : Bool)
  | null
deriving DecidableEq, Repr

/-- Decimal digit character (for rendering `%d`). -/
def digitChar (n : Nat) : Char := Char.ofNat (48 + n)

/-- Decimal rendering of a natural number, modelling Go's `%d` verb. -/
def natToDec (n : Nat) : String :=
  if _h : n < 10 then String.mk [digitChar n]
  else String.mk ((natToDec (n / 10)).data ++ [digitChar (n % 10)])
termination_by n
decreasing_by exact Nat.div_lt_self (by omega) (by omega)

/-- Decimal rendering of an integer, modelling Go's `%d` verb. -/
def intToDec (i : Int) : String :=
  if i < 0 then "-" ++ natToDec i.natAbs else natToDec i.toNat

/-- Go `%v`-style rendering of a value into SQL text.  The only place the
builder renders a value into the statement text is the `IN`/`BETWEEN` branch
of assembly; `WhereIn`/`WhereBetween` always store strings there, on which
this agrees with Go exactly.  (On non-string values Go's `%s` emits a
diagnostic form such as a parenthesised type tag; both that form and the
plain form used here are free of `?` characters, which is all the theorems
below depend on for non-string values.) -/
def GoValue.render : GoValue → String
  | .int n => intToDec n
  | .str s => s
  | .bool b => if b then "true" else "false"
  | .null => "<nil>"

/-- Go's `%q` verb on the strings used in error messages of this layer
(escapes backslash and double quote; other ASCII characters are literal). -/
def goQuoteChar (c : Char) : List Char :=
  if c = '"' then ['\\', '"']
  else if c = '\\' then ['\\', '\\']
  else [c]

/-- Go's `%q` formatting of a string. -/
def goQuote (s : String) : String :=
  String.mk ('"' :: (s.data.flatMap goQuoteChar ++ ['"']))

/-- ASCII upper-casing, as Go's `strings.ToUpper` acts on the ASCII inputs
used by the validators. -/
def goUpperChar (c : Char) : Char :=
  if 'a' ≤ c ∧ c ≤ 'z' then Char.ofNat (c.toNat - 32) else c

/-- ASCII upper-casing of a string. -/
def goUpper (s : String) : String := String.mk (s.data.map goUpperChar)

/-- First character of a bare identifier: `[a-zA-Z_]`. -/
def isIdentStart (c : Char) : Bool :=
  ('a' ≤ c && c ≤ 'z') || ('A' ≤ c && c ≤ 'Z') || c = '_'

/-- Subsequent character of a bare identifier: `[a-zA-Z0-9_]`. -/
def isIdentChar (c : Char) : Bool :=
  isIdentStart c || ('0' ≤ c && c ≤ '9')

/-- RE2 `\s`: `[\t\n\f\r ]`. -/
def isWS (c : Char) : Bool :=
  c = ' ' || c = '\t' || c = '\n' || c = '\x0c' || c = '\r'

/-- Consume `[a-zA-Z_][a-zA-Z0-9_]*` from the front, returning the rest;
`none` when no identifier starts here. -/
def takeIdent : List Char → Option (List Char)
  | [] => none
  | c :: rest => if isIdentStart c then some (rest.dropWhile isIdentChar) else none

/-- Consume one-or-more whitespace characters (`\s+`), returning the rest. -/
def takeWS1 : List Char → Option (List Char)
  | [] => none
  | c :: rest => if isWS c then some (rest.dropWhile isWS) else none

/-- The regular expression `^[a-zA-Z_][a-zA-Z0-9_]*(\.[a-zA-Z_][a-zA-Z0-9_]*)?$`
(`validIdentifier` in the source): a bare identifier with at most one
`.`-qualification. -/
def validIdentifier (s : String) : Bool :=
  match takeIdent s.data with
  | none => false
  | some rest =>
    match rest with
    | [] => true
    | '.' :: r2 =>
      match takeIdent r2 with
      | none => false
      | some r3 => r3.isEmpty
    | _ => false

/-- `isValidIdentifier` from the source.  `none` models the Go runtime panic:
for a one-character string that is a backtick or a double quote, both
`HasPrefix` and `HasSuffix` hold and the code evaluates `s[1:0]`, which is
out of range. -/
def isValidIdentifier (s : String) : Option Bool :=
  let quoted :=
    (s.data.head? = some '`' && s.data.getLast? = some '`') ||
    (s.data.head? = some '"' && s.data.getLast? = some '"')
  if quoted then
    if s.data.length < 2 then none
    else
      let inner := (s.data.drop 1).dropLast
      some (!inner.isEmpty && !(inner.any fun c => c = '`' || c = '"'))
  else some (validIdentifier s)

/-- `isValidOperator` from the source: fixed whitelist, case-insensitive. -/
def isValidOperator (op : String) : Bool :=
  let u := goUpper op
  u = "=" || u = "!=" || u = "<>" || u = "<" || u = ">" ||
  u = "<=" || u = ">=" || u = "LIKE" || u = "NOT LIKE" ||
  u = "IN" || u = "NOT IN" || u = "BETWEEN" || u = "IS NULL" ||
  u = "IS NOT NULL" || u = "REGEXP"

/-- Aggregate-function names of the select-expression regex. -/
def aggFunNames : List (List Char) :=
  ["COUNT".data, "SUM".data, "AVG".data, "MIN".data, "MAX".data,
   "GROUP_CONCAT".data]

/-- Strip one of the aggregate-function names from the front (no name is a
prefix of another, so this is deterministic). -/
def stripAggName (l : List Char) : Option (List Char) :=
  (aggFunNames.filterMap fun n =>
    if n.isPrefixOf l then some (l.drop n.length) else none).head?

/-- The optional `(\s+AS\s+[a-zA-Z_][a-zA-Z0-9_]*)?$` tail of the aggregate
select-expression regex. -/
def takeOptAlias (l : List Char) : Bool :=
  l.isEmpty ||
  (match takeWS1 l with
   | none => false
   | some r1 =>
     match r1 with
     | 'A' :: 'S' :: r2 =>
       match takeWS1 r2 with
       | none => false
       | some r3 =>
         match takeIdent r3 with
         | none => false
         | some r4 => r4.isEmpty
     | _ => false)

/-- The aggregate branch of `isValidSelectExpression`, matched against the
upper-cased string: `^(COUNT|SUM|AVG|MIN|MAX|GROUP_CONCAT)\s*\([^)]+\)` with
an optional `AS alias` tail. -/
def matchAggregate (l : List Char) : Bool :=
  match stripAggName l with
  | none => false
  | some r0 =>
    match r0.dropWhile isWS with
    | '(' :: r1 =>
      let body := r1.takeWhile (fun c => c ≠ ')')
      match r1.dropWhile (fun c => c ≠ ')') with
      | ')' :: tail => !body.isEmpty && takeOptAlias tail
      | _ => false
    | _ => false

/-- Consume `ident(\.ident)?` from the front. -/
def takeQualIdent (l : List Char) : Option (List Char) :=
  match takeIdent l with
  | none => none
  | some rest =>
    match rest with
    | '.' :: r2 => takeIdent r2
    | _ => some rest

/-- The alias branch of `isValidSelectExpression`, on the original string:
`^ident(\.ident)?\s+AS\s+ident$`. -/
def matchAlias (l : List Char) : Bool :=
  match takeQualIdent l with
  | none => false
  | some r1 =>
    match takeWS1 r1 with
    | none => false
    | some r2 =>
      match r2 with
      | 'A' :: 'S' :: r3 =>
        match takeWS1 r3 with
        | none => false
        | some r4 =>
          match takeIdent r4 with
          | none => false
          | some r5 => r5.isEmpty
      | _ => false

/-- `isValidSelectExpression` from the source. -/
def isValidSelectExpression (s : String) : Bool :=
  matchAggregate (goUpper s).data || matchAlias s.data

/-- Consume `ident\.ident\s*=\s*ident\.ident` from the front (one comparison
of the join-condition regex; the dot qualification is mandatory). -/
def takeJoinCmp (l : List Char) : Option (List Char) :=
  match takeIdent l with
  | none => none
  | some r1 =>
    match r1 with
    | '.' :: r2 =>
      match takeIdent r2 with
      | none => none
      | some r3 =>
        match r3.dropWhile isWS with
        | '=' :: r4 =>
          let r5 := r4.dropWhile isWS
          match takeIdent r5 with
          | none => none
          | some r6 =>
            match r6 with
            | '.' :: r7 => takeIdent r7
            | _ => none
        | _ => none
    | _ => none

/-- The `(\s+(AND|OR)\s+cmp)*$` tail of the join-condition regex.  Each step
consumes at least one character, so fuel `l.length + 1` never runs out on a
string the regex accepts. -/
def takeJoinRest : Nat → List Char → Bool
  | _, [] => true
  | 0, _ => false
  | fuel + 1, l =>
    match takeWS1 l with
    | none => false
    | some r1 =>
      let conn : Option (List Char) :=
        match r1 with
        | 'A' :: 'N' :: 'D' :: t => some t
        | 'O' :: 'R' :: t => some t
        | _ => none
      match conn with
      | none => false
      | some r2 =>
        match takeWS1 r2 with
        | none => false
        | some r3 =>
          match takeJoinCmp r3 with
          | none => false
          | some r4 => takeJoinRest fuel r4

/-- `isValidJoinCondition` from the source: `table.column = table.column`
comparisons chained by `AND`/`OR`. -/
def isValidJoinCondition (s : String) : Bool :=
  match takeJoinCmp s.data with
  | none => false
  | some rest => takeJoinRest (rest.length + 1) rest

/-- Go's `strings.Join`. -/
def goJoin (sep : String) : List String → String
  | [] => ""
  | [x] => x
  | x :: rest => x ++ sep ++ goJoin sep rest

/-- Concatenation of a list of fragments (a Go loop of `WriteString`s). -/
def concatAll : List String → String
  | [] => ""
  | x :: rest => x ++ concatAll rest

/-- `whereCondition` from the source.  The Go `params` field is `nil` except
for `IN`/`BETWEEN` conditions; `nil` and an empty slice are observationally
equal in assembly (both append nothing), so both are the empty list here. -/
structure Cond where
  column : String
  operator : String
  value : GoValue
  logic : String
  params : List GoValue := []
deriving DecidableEq, Repr

/-- `joinClause` from the source (the `on` field is `onText` here, `on` being
reserved in Lean). -/
structure JoinClause where
  joinType : String
  table : String
  onText : String
deriving DecidableEq, Repr

/-- The non-recursive fields of `QueryBuilder`.  The `db`/`rawDB` handles are
external execution ports and carry no state observable by this layer except
presence, which the transaction model takes as an explicit input. -/
structure QB0 where
  table : String := ""
  selectCols : List String := []
  whereConds : List Cond := []
  orderBy : List String := []
  groupBy : List String := []
  having : List Cond := []
  joins : List JoinClause := []
  limitCount : Int := 0
  offsetCount : Int := 0
  err : Option String := none
  includeTrashed : Bool := false
deriving DecidableEq, Repr

/-- `QueryBuilder` from the source: the flat fields plus the recursive
`unionQuery` pointer and its `unionAll` flag. -/
inductive QueryBuilder where
  | mk (core : QB0) (unionQuery : Option QueryBuilder) (unionAll : Bool)
deriving Repr

/-- The flat fields of a builder. -/
def QueryBuilder.core : QueryBuilder → QB0
  | .mk c _ _ => c

/-- The `unionQuery` field. -/
def QueryBuilder.unionQuery : QueryBuilder → Option QueryBuilder
  | .mk _ u _ => u

/-- The `unionAll` field. -/
def QueryBuilder.unionAll : QueryBuilder → Bool
  | .mk _ _ a => a

/-- Replace the flat fields, keeping the union fields. -/
def QueryBuilder.setCore : QueryBuilder → QB0 → QueryBuilder
  | .mk _ u a, c => .mk c u a

/-- `NewQueryBuilder` from the source (all clause lists empty, no error). -/
def newQueryBuilder : QueryBuilder := .mk {} none false

/-- Two's-complement wrap of an integer to Go's 64-bit `int`
(the literals are 2^63 and 2^64): arithmetic on Go ints is performed
modulo 2^64 with results reinterpreted as signed values. -/
def goWrap64 (i : Int) : Int :=
  (i + 9223372036854775808) % 18446744073709551616 - 9223372036854775808

namespace QueryBuilder

/-- `Table` mutator: validate and set the table name.  `none` is a panic
inside `isValidIdentifier`. -/
def Table (qb : QueryBuilder) (table : String) : Option QueryBuilder :=
  match isValidIdentifier table with
  | none => none
  | some false =>
    some (qb.setCore { qb.core with err := some ("invalid table name: " ++ goQuote table) })
  | some true => some (qb.setCore { qb.core with table := table })

/-- The per-column loop of `Select`: skip `*` and valid select expressions,
otherwise require a valid identifier; the first invalid column aborts the
call (returning its name) before any column is stored. -/
def selectColsCheck : List String → Option (Option String)
  | [] => some none
  | c :: rest =>
    if c = "*" || isValidSelectExpression c then selectColsCheck rest
    else
      match isValidIdentifier c with
      | none => none
      | some false => some (some c)
      | some true => selectColsCheck rest

/-- `Select` mutator. -/
def Select (qb : QueryBuilder) (columns : List String) : Option QueryBuilder :=
  match selectColsCheck columns with
  | none => none
  | some (some c) =>
    some (qb.setCore { qb.core with err := some ("invalid column name: " ++ goQuote c) })
  | some none => some (qb.setCore { qb.core with selectCols := columns })

/-- `Where` mutator: validates column and operator, then appends an `AND`
condition holding the single value (no `params`). -/
def Where (qb : QueryBuilder) (column operator : String) (value : GoValue) :
    Option QueryBuilder :=
  match isValidIdentifier column with
  | none => none
  | some false =>
    some (qb.setCore { qb.core with
      err := some ("invalid column name in WHERE: " ++ goQuote column) })
  | some true =>
    if !isValidOperator operator then
      some (qb.setCore { qb.core with
        err := some ("invalid operator in WHERE: " ++ goQuote operator) })
    else
      some (qb.setCore { qb.core with
        whereConds := qb.core.whereConds ++
          [{ column := column, operator := operator, value := value, logic := "AND" }] })

/-- `OrWhere` mutator: as `Where` but with `OR` logic. -/
def OrWhere (qb : QueryBuilder) (column operator : String) (value : GoValue) :
    Option QueryBuilder :=
  match isValidIdentifier column with
  | none => none
  | some false =>
    some (qb.setCore { qb.core with
      err := some ("invalid column name in OrWhere: " ++ goQuote column) })
  | some true =>
    if !isValidOperator operator then
      some (qb.setCore { qb.core with
        err := some ("invalid operator in OrWhere: " ++ goQuote operator) })
    else
      some (qb.setCore { qb.core with
        whereConds := qb.core.whereConds ++
          [{ column := column, operator := operator, value := value, logic := "OR" }] })

/-- `WhereIn` mutator: precomputes the `(?, ?, ...)` placeholder text and
stores the values as extra params. -/
def WhereIn (qb : QueryBuilder) (column : String) (values : List GoValue) :
    Option QueryBuilder :=
  match isValidIdentifier column with
  | none => none
  | some false =>
    some (qb.setCore { qb.core with
      err := some ("invalid column name in WhereIn: " ++ goQuote column) })
  | some true =>
    let inClause := "(" ++ goJoin ", " (values.map fun _ => "?") ++ ")"
    some (qb.setCore { qb.core with
      whereConds := qb.core.whereConds ++
        [{ column := column, operator := "IN", value := .str inClause,
           logic := "AND", params := values }] })

/-- `WhereBetween` mutator: stores the literal `? AND ?` text with the two
bounds as extra params. -/
def WhereBetween (qb : QueryBuilder) (column : String) (start stop : GoValue) :
    Option QueryBuilder :=
  match isValidIdentifier column with
  | none => none
  | some false =>
    some (qb.setCore { qb.core with
      err := some ("invalid column name in WhereBetween: " ++ goQuote column) })
  | some true =>
    some (qb.setCore { qb.core with
      whereConds := qb.core.whereConds ++
        [{ column := column, operator := "BETWEEN", value := .str "? AND ?",
           logic := "AND", params := [start, stop] }] })

/-- `WhereNull` mutator. -/
def WhereNull (qb : QueryBuilder) (column : String) : Option QueryBuilder :=
  match isValidIdentifier column with
  | none => none
  | some false =>
    some (qb.setCore { qb.core with
      err := some ("invalid column name in WhereNull: " ++ goQuote column) })
  | some true =>
    some (qb.setCore { qb.core with
      whereConds := qb.core.whereConds ++
        [{ column := column, operator := "IS NULL", value := .str "", logic := "AND" }] })

/-- `WhereNotNull` mutator. -/
def WhereNotNull (qb : QueryBuilder) (column : String) : Option QueryBuilder :=
  match isValidIdentifier column with
  | none => none
  | some false =>
    some (qb.setCore { qb.core with
      err := some ("invalid column name in WhereNotNull: " ++ goQuote column) })
  | some true =>
    some (qb.setCore { qb.core with
      whereConds := qb.core.whereConds ++
        [{ column := column, operator := "IS NOT NULL", value := .str "", logic := "AND" }] })

/-- Shared shape of `Join`/`LeftJoin`/`RightJoin`: validate table then the
`ON` text, then append the clause.  `kind` and the two error labels vary. -/
def addJoin (qb : QueryBuilder) (kind tableLabel onLabel table onText : String) :
    Option QueryBuilder :=
  match isValidIdentifier table with
  | none => none
  | some false =>
    some (qb.setCore { qb.core with
      err := some ("invalid table name in " ++ tableLabel ++ ": " ++ goQuote table) })
  | some true =>
    if !isValidJoinCondition onText then
      some (qb.setCore { qb.core with
        err := some ("invalid " ++ onLabel ++ " condition: " ++ goQuote onText) })
    else
      some (qb.setCore { qb.core with
        joins := qb.core.joins ++ [{ joinType := kind, table := table, onText := onText }] })

/-- `Join` mutator (INNER). -/
def Join (qb : QueryBuilder) (table onText : String) : Option QueryBuilder :=
  addJoin qb "INNER" "Join" "JOIN" table onText

/-- `LeftJoin` mutator. -/
def LeftJoin (qb : QueryBuilder) (table onText : String) : Option QueryBuilder :=
  addJoin qb "LEFT" "LeftJoin" "LEFT JOIN" table onText

/-- `RightJoin` mutator. -/
def RightJoin (qb : QueryBuilder) (table onText : String) : Option QueryBuilder :=
  addJoin qb "RIGHT" "RightJoin" "RIGHT JOIN" table onText

/-- `OrderBy` mutator: empty direction defaults to `ASC`; direction is
upper-cased and must be `ASC` or `DESC`; stores the pre-rendered pair. -/
def OrderBy (qb : QueryBuilder) (column direction : String) : Option QueryBuilder :=
  match isValidIdentifier column with
  | none => none
  | some false =>
    some (qb.setCore { qb.core with
      err := some ("invalid column name in OrderBy: " ++ goQuote column) })
  | some true =>
    let direction := if direction = "" then "ASC" else direction
    let dir := goUpper direction
    if !(dir = "ASC" || dir = "DESC") then
      some (qb.setCore { qb.core with
        err := some ("invalid ORDER BY direction: " ++ goQuote direction) })
    else
      some (qb.setCore { qb.core with
        orderBy := qb.core.orderBy ++ [column ++ " " ++ dir] })

/-- The per-column loop of `GroupBy`: the first invalid column aborts before
any column is appended. -/
def groupColsCheck : List String → Option (Option String)
  | [] => some none
  | c :: rest =>
    match isValidIdentifier c with
    | none => none
    | some false => some (some c)
    | some true => groupColsCheck rest

/-- `GroupBy` mutator. -/
def GroupBy (qb : QueryBuilder) (columns : List String) : Option QueryBuilder :=
  match groupColsCheck columns with
  | none => none
  | some (some c) =>
    some (qb.setCore { qb.core with
      err := some ("invalid column name in GroupBy: " ++ goQuote c) })
  | some none =>
    some (qb.setCore { qb.core with groupBy := qb.core.groupBy ++ columns })

/-- `Having` mutator: the column may be an identifier or a select
expression (the identifier check runs first, as in the Go `&&`). -/
def Having (qb : QueryBuilder) (column operator : String) (value : GoValue) :
    Option QueryBuilder :=
  match isValidIdentifier column with
  | none => none
  | some idOK =>
    if !idOK && !isValidSelectExpression column then
      some (qb.setCore { qb.core with
        err := some ("invalid column/expression in Having: " ++ goQuote column) })
    else if !isValidOperator operator then
      some (qb.setCore { qb.core with
        err := some ("invalid operator in Having: " ++ goQuote operator) })
    else
      some (qb.setCore { qb.core with
        having := qb.core.having ++
          [{ column := column, operator := operator, value := value, logic := "AND" }] })

/-- `Limit` mutator (no validation). -/
def Limit (qb : QueryBuilder) (count : Int) : QueryBuilder :=
  qb.setCore { qb.core with limitCount := count }

/-- `Offset` mutator (no validation). -/
def Offset (qb : QueryBuilder) (count : Int) : QueryBuilder :=
  qb.setCore { qb.core with offsetCount := count }

/-- `Union` mutator. -/
def Union (qb : QueryBuilder) (query : QueryBuilder) : QueryBuilder :=
  .mk qb.core (some query) false

/-- `UnionAll` mutator. -/
def UnionAll (qb : QueryBuilder) (query : QueryBuilder) : QueryBuilder :=
  .mk qb.core (some query) true

/-- `WithTrashed` mutator: sets the `includeTrashed` flag. -/
def WithTrashed (qb : QueryBuilder) : QueryBuilder :=
  qb.setCore { qb.core with includeTrashed := true }

/-- `OnlyTrashed` mutator: `WhereNotNull "deleted_at"`. -/
def OnlyTrashed (qb : QueryBuilder) : Option QueryBuilder :=
  qb.WhereNotNull "deleted_at"

/-- `Paginate` mutator: clamp page and page size, then set limit/offset.
The multiplication `(page - 1) * perPage` is Go fixed-width `int`
arithmetic, so the stored offset is the 64-bit two's-complement wrap of the
product.  (The clamped `page - 1` subtraction cannot overflow for any
representable input, since the clamp guarantees `page ≥ 1`.) -/
def Paginate (qb : QueryBuilder) (page perPage : Int) : QueryBuilder :=
  let page := if page < 1 then 1 else page
  let perPage := if perPage < 1 then 15 else perPage
  let offset := goWrap64 ((page - 1) * perPage)
  (qb.Limit perPage).Offset offset

/-- Rendering of one WHERE condition (the `switch cond.operator` of
assembly): `IS NULL`/`IS NOT NULL` emit no placeholder; `IN`/`BETWEEN` emit
the stored value text literally and contribute their extra params; every
other operator emits `column operator ?` and contributes the single value. -/
def condSQL (c : Cond) : String × List GoValue :=
  if c.operator = "IS NULL" || c.operator = "IS NOT NULL" then
    (c.column ++ " " ++ c.operator, [])
  else if c.operator = "IN" || c.operator = "BETWEEN" then
    (c.column ++ " " ++ c.operator ++ " " ++ c.value.render, c.params)
  else
    (c.column ++ " " ++ c.operator ++ " ?", [c.value])

/-- Rendering of one HAVING condition: always the
`column operator ?` form with the single value as parameter. -/
def havingSQL (c : Cond) : String × List GoValue :=
  (c.column ++ " " ++ c.operator ++ " ?", [c.value])

/-- The condition loop of assembly: every condition after the first is
prefixed by its own logic keyword; texts are concatenated and parameter
contributions appended in order. -/
def renderConds (item : Cond → String × List GoValue) :
    Bool → List Cond → String × List GoValue
  | _, [] => ("", [])
  | first, c :: rest =>
    let pre := if first then "" else " " ++ c.logic ++ " "
    let (t, ps) := item c
    let (rt, rps) := renderConds item false rest
    (pre ++ t ++ rt, ps ++ rps)

/-- One join clause's fragment: ` KIND JOIN table ON onText`. -/
def joinSQL (j : JoinClause) : String :=
  " " ++ j.joinType ++ " JOIN " ++ j.table ++ " ON " ++ j.onText

/-- The `SELECT` clause: `*` when no columns were chosen. -/
def selectSQL (core : QB0) : String :=
  "SELECT " ++ (if core.selectCols.isEmpty then "*" else goJoin ", " core.selectCols)

/-- The `WHERE` clause with its parameters (the same loop is reused verbatim
by the `Update`/`Delete` statement builders in the source). -/
def whereSQL (conds : List Cond) : String × List GoValue :=
  if conds.isEmpty then ("", [])
  else
    let p := renderConds condSQL true conds
    (" WHERE " ++ p.1, p.2)

/-- The `HAVING` clause with its parameters. -/
def havingClause (conds : List Cond) : String × List GoValue :=
  if conds.isEmpty then ("", [])
  else
    let p := renderConds havingSQL true conds
    (" HAVING " ++ p.1, p.2)

/-- The `GROUP BY` clause. -/
def groupSQL (core : QB0) : String :=
  if core.groupBy.isEmpty then "" else " GROUP BY " ++ goJoin ", " core.groupBy

/-- The `ORDER BY` clause. -/
def orderSQL (core : QB0) : String :=
  if core.orderBy.isEmpty then "" else " ORDER BY " ++ goJoin ", " core.orderBy

/-- The `LIMIT` clause, emitted only for a positive count. -/
def limitSQL (core : QB0) : String :=
  if 0 < core.limitCount then " LIMIT " ++ intToDec core.limitCount else ""

/-- The `OFFSET` clause, emitted only for a positive count. -/
def offsetSQL (core : QB0) : String :=
  if 0 < core.offsetCount then " OFFSET " ++ intToDec core.offsetCount else ""

/-- Assembly of the flat (non-union) part of a builder, assuming the error
and empty-table checks have passed: the fixed clause order
SELECT, FROM, JOINs, WHERE, GROUP BY, HAVING, ORDER BY, LIMIT, OFFSET. -/
def assembleBase (core : QB0) : String × List GoValue :=
  (selectSQL core ++ " FROM " ++ core.table ++ concatAll (core.joins.map joinSQL) ++
     (whereSQL core.whereConds).1 ++ groupSQL core ++ (havingClause core.having).1 ++
     orderSQL core ++ limitSQL core ++ offsetSQL core,
   (whereSQL core.whereConds).2 ++ (havingClause core.having).2)

/-- `ToSQL` from the source: sticky error first, then the required-table
check, then clause assembly, then the recursively assembled union suffix
with the child's parameters appended after the parent's. -/
def ToSQL : QueryBuilder → Except String (String × List GoValue)
  | .mk core u uall =>
    match core.err with
    | some e => .error e
    | none =>
      if core.table = "" then .error "table name is required"
      else
        let base := assembleBase core
        match u with
        | none => .ok base
        | some child =>
          match ToSQL child with
          | .error e => .error e
          | .ok (usql, uparams) =>
            .ok (base.1 ++ " " ++ (if uall then "UNION ALL" else "UNION") ++ " " ++ usql,
                 base.2 ++ uparams)

/-- `Count` from the source, up to its builder-state effect and the SQL it
hands to the port: swap `selectCols` to `COUNT(*)`, assemble, and restore the
original columns only when assembly succeeded (the error path returns before
the restore).  The first component is what reaches the execution port; the
second is the builder state as left behind by the call. -/
def Count (qb : QueryBuilder) :
    Except String (String × List GoValue) × QueryBuilder :=
  let swapped := qb.setCore { qb.core with selectCols := ["COUNT(*)"] }
  match ToSQL swapped with
  | .error e => (.error e, swapped)
  | .ok r => (.ok r, swapped.setCore { swapped.core with selectCols := qb.core.selectCols })

/-- The statement-building part of `Insert` (data as an ordered association
list; Go map iteration order is irrelevant to the claims below).  Checks the
sticky error, then the table, then validates every column key. -/
def InsertSQL (qb : QueryBuilder) (data : List (String × GoValue)) :
    Option (Except String (String × List GoValue)) :=
  match qb.core.err with
  | some e => some (.error e)
  | none =>
    if qb.core.table = "" then some (.error "table name is required")
    else
      match groupColsCheck (data.map (·.1)) with
      | none => none
      | some (some c) => some (.error ("invalid column name in Insert: " ++ goQuote c))
      | some none =>
        some (.ok ("INSERT INTO " ++ qb.core.table ++ " (" ++
            goJoin ", " (data.map (·.1)) ++ ") VALUES (" ++
            goJoin ", " (data.map fun _ => "?") ++ ")",
          data.map (·.2)))

/-- The statement-building part of `Update`: sticky error, table check,
column validation, `SET` assignments, then the shared WHERE rendering. -/
def UpdateSQL (qb : QueryBuilder) (data : List (String × GoValue)) :
    Option (Except String (String × List GoValue)) :=
  match qb.core.err with
  | some e => some (.error e)
  | none =>
    if qb.core.table = "" then some (.error "table name is required")
    else
      match groupColsCheck (data.map (·.1)) with
      | none => none
      | some (some c) => some (.error ("invalid column name in Update: " ++ goQuote c))
      | some none =>
        let base := "UPDATE " ++ qb.core.table ++ " SET " ++
          goJoin ", " (data.map fun kv => kv.1 ++ " = ?")
        some (.ok (base ++ (whereSQL qb.core.whereConds).1,
          data.map (·.2) ++ (whereSQL qb.core.whereConds).2))

/-- The statement-building part of `Delete`: sticky error, table check, then
`DELETE FROM` with the shared WHERE rendering. -/
def DeleteSQL (qb : QueryBuilder) : Except String (String × List GoValue) :=
  match qb.core.err with
  | some e => .error e
  | none =>
    if qb.core.table = "" then .error "table name is required"
    else
      .ok ("DELETE FROM " ++ qb.core.table ++ (whereSQL qb.core.whereConds).1,
        (whereSQL qb.core.whereConds).2)

end QueryBuilder

/-- `Transaction` from the source, with the external effects as explicit
inputs: `hasRawDB` is whether the builder holds a transaction-capable
connection, and the four `Option String` inputs are the error outcomes of
`Begin`, the callback, `Rollback` and `Commit` (`none` = success).  The
result is the error returned by `Transaction`. -/
def Transaction (hasRawDB : Bool) (beginErr fnErr rollbackErr commitErr : Option String) :
    Option String :=
  if !hasRawDB then some "cannot start transaction: no database connection"
  else
    match beginErr with
    | some e => some ("failed to begin transaction: " ++ e)
    | none =>
      match fnErr with
      | some err =>
        match rollbackErr with
        | some rbErr =>
          some ("rollback failed: " ++ rbErr ++ " (original error: " ++ err ++ ")")
        | none => some err
      | none =>
        match commitErr with
        | some e => some ("failed to commit transaction: " ++ e)
        | none => none

/-- `Model` from the source. -/
structure Model where
  table : String
  primaryKey : String
  softDelete : Bool
deriving DecidableEq, Repr

/-- `NewModel` from the source: primary key defaults to `id`, soft delete
off. -/
def NewModel (table : String) : Model :=
  { table := table, primaryKey := "id", softDelete := false }

/-- `WithSoftDelete` from the source. -/
def Model.WithSoftDelete (m : Model) : Model := { m with softDelete := true }

/-- `Model.Query` from the source: reject an invalid table with a sticky
error on a fresh builder; otherwise set the table and, when soft delete is
enabled, inject `WhereNull "deleted_at"`. -/
def Model.Query (m : Model) : Option QueryBuilder :=
  match isValidIdentifier m.table with
  | none => none
  | some false =>
    some ((newQueryBuilder).setCore
      { newQueryBuilder.core with err := some ("invalid table name: " ++ goQuote m.table) })
  | some true =>
    match newQueryBuilder.Table m.table with
    | none => none
    | some qb => if m.softDelete then qb.WhereNull "deleted_at" else some qb

/-- Result of a chunked iteration, as observed at this layer: the returned
error, the number of page statements actually handed to the execution port,
and the pages passed to the callback (in order). -/
structure ChunkTrace (α : Type) where
  result : Option String
  queriesIssued : Nat
  callbackPages : List (List α)
deriving Repr

/-- The per-chunk child builder of `Chunk`: the parent's clauses with the
page limit and running offset; the sticky error and the union query are not
among the copied fields, so they reset to their zero values. -/
def chunkChild (qb : QueryBuilder) (size offset : Int) : QueryBuilder :=
  .mk { table := qb.core.table, selectCols := qb.core.selectCols,
        whereConds := qb.core.whereConds, orderBy := qb.core.orderBy,
        groupBy := qb.core.groupBy, having := qb.core.having,
        joins := qb.core.joins, limitCount := size, offsetCount := offset,
        err := none, includeTrashed := qb.core.includeTrashed } none false

/-- The offset-based page loop of `Chunk`, over an abstract result set
`allRows` (the port returns `rows[offset, offset+size)` for a page query).
Each non-empty page costs two executed statements (the probe and the
re-execution handed to the callback), matching the double-execution pattern
of the source; an empty page costs the probe only and stops the loop.  The
fuel argument only serves termination and is chosen large enough that it
never runs out (the offset grows by `size ≥ 1` each round). -/
def chunkLoop {α : Type} (size : Nat) (allRows : List α) (cb : List α → Bool) :
    Nat → Nat → Nat → List (List α) → ChunkTrace α
  | 0, _, q, pages => ⟨none, q, pages.reverse⟩
  | fuel + 1, offset, q, pages =>
    let page := (allRows.drop offset).take size
    if page.isEmpty then ⟨none, q + 1, pages.reverse⟩
    else if cb page then
      chunkLoop size allRows cb fuel (offset + size) (q + 2) (page :: pages)
    else ⟨none, q + 2, (page :: pages).reverse⟩

/-- `Chunk` from the source: the non-positive-size guard fails fast with no
statement executed and no callback invocation; otherwise pages are fetched
via per-page child builders (assembly failure of the child, which does not
depend on the offset, surfaces before any statement runs). -/
def Chunk {α : Type} (qb : QueryBuilder) (size : Int) (allRows : List α)
    (cb : List α → Bool) : ChunkTrace α :=
  if size ≤ 0 then ⟨some "chunk size must be positive", 0, []⟩
  else
    match QueryBuilder.ToSQL (chunkChild qb size 0) with
    | .error e => ⟨some e, 0, []⟩
    | .ok _ => chunkLoop size.toNat allRows cb (allRows.length + 1) 0 0 []

/-- Outcome of running a Go routine that may panic or fail to terminate. -/
inductive GoOutcome (α : Type) where
  | ok (a : α)
  | panic
  | diverge
deriving Repr

/-- The page loop of `ChunkByID`.  The source never advances `lastID` from
the observed rows (it stays `0`), so with `allRows` the result set of the
parent query (ids assumed positive and ascending) every round fetches the
same first page; the loop ends only when that page is empty or the callback
returns `false`.  Exhausted fuel therefore reports genuine divergence of the
source loop, not a modelling artefact. -/
def chunkByIDLoop (size : Nat) (allRows : List Int) (cb : List Int → Bool) :
    Nat → Nat → List (List Int) → GoOutcome (ChunkTrace Int)
  | 0, _, _ => .diverge
  | fuel + 1, q, pages =>
    let page := (allRows.filter fun r => 0 < r).take size
    if page.isEmpty then .ok ⟨none, q + 1, pages.reverse⟩
    else if cb page then chunkByIDLoop size allRows cb fuel (q + 2) (page :: pages)
    else .ok ⟨none, q + 2, (page :: pages).reverse⟩

/-- `ChunkByID` from the source: the size guard runs first, then identifier
validation of the key column (which can panic, modelled as `.panic`), then
the page loop; `fuel` bounds the number of rounds we unfold. -/
def ChunkByID (qb : QueryBuilder) (size : Int) (column : String)
    (allRows : List Int) (cb : List Int → Bool) (fuel : Nat) :
    GoOutcome (ChunkTrace Int) :=
  if size ≤ 0 then .ok ⟨some "chunk size must be positive", 0, []⟩
  else
    match isValidIdentifier column with
    | none => .panic
    | some false => .ok ⟨some ("invalid column name: " ++ goQuote column), 0, []⟩
    | some true =>
      match QueryBuilder.ToSQL (chunkChild qb size 0) with
      | .error e => .ok ⟨some e, 0, []⟩
      | .ok _ => chunkByIDLoop size.toNat allRows cb fuel 0 []

open QueryBuilder

/-!  Placeholder counting.  -/

/-- Number of `?` placeholder characters in a string. -/
def countQ (s : String) : Nat := s.data.count '?'

/-- Well-formedness of one WHERE condition for placeholder bookkeeping: the
fragments rendered verbatim are free of `?`, and a condition rendered in the
literal `IN`/`BETWEEN` form carries exactly as many `?` in its value text as
it carries extra params.  Conditions produced by `WhereIn`/`WhereBetween`
satisfy this by construction; a condition produced by `Where`/`OrWhere` with
operator exactly `IN` or `BETWEEN` need not. -/
def condWFb (c : Cond) : Bool :=
  countQ c.column == 0 && countQ c.operator == 0 && countQ c.logic == 0 &&
  (!(c.operator == "IN" || c.operator == "BETWEEN") ||
    countQ c.value.render == c.params.length)

/-- Well-formedness of one HAVING condition: its verbatim fragments are free
of `?` (it always renders in the single-placeholder form). -/
def havingWFb (c : Cond) : Bool :=
  countQ c.column == 0 && countQ c.operator == 0 && countQ c.logic == 0

/-- Well-formedness of the flat builder fields for placeholder bookkeeping:
every fragment copied verbatim into the SQL text is free of `?`. -/
def coreWFb (core : QB0) : Bool :=
  countQ core.table == 0 &&
  core.selectCols.all (fun s => countQ s == 0) &&
  core.joins.all (fun j =>
    countQ j.joinType == 0 && countQ j.table == 0 && countQ j.onText == 0) &&
  core.groupBy.all (fun s => countQ s == 0) &&
  core.orderBy.all (fun s => countQ s == 0) &&
  core.whereConds.all condWFb &&
  core.having.all havingWFb

/-- Well-formedness of a builder and its whole union chain. -/
def QueryBuilder.WFb : QueryBuilder → Bool
  | .mk core u _ =>
    coreWFb core &&
    (match u with
     | none => true
     | some child => child.WFb)

/-- The concrete input refuting C1 as stated: a builder with no sticky error
and a non-empty table, obtained from `Table` and a plain `Where` with the
whitelisted operator `IN`. -/
def cexQB : QueryBuilder :=
  .mk { table := "users",
        whereConds := [{ column := "id", operator := "IN",
                         value := .str "(?)", logic := "AND" }] } none false

/-- Substring test on character lists. -/
def strContainsAux (sub : List Char) : List Char → Bool
  | [] => sub.isEmpty
  | l@(_ :: t) => sub.isPrefixOf l || strContainsAux sub t

/-- Whether `sub` occurs contiguously inside `s`. -/
def strContains (s sub : String) : Bool := strContainsAux sub.data s.data

/-- Whether an assembly outcome is a success. -/
def exceptIsOk (r : Except String (String × List GoValue)) : Bool :=
  match r with
  | .ok _ => true
  | .error _ => false

theorem countQ_append (a b : String) : countQ (a ++ b) = countQ a + countQ b := by
  simp [countQ, String.data_append, List.count_append]

theorem cq_empty : countQ "" = 0 := by decide

theorem cq_space : countQ " " = 0 := by decide

theorem cq_qmark : countQ " ?" = 1 := by decide

theorem cq_where : countQ " WHERE " = 0 := by decide

theorem cq_having : countQ " HAVING " = 0 := by decide

theorem cq_from : countQ " FROM " = 0 := by decide

theorem cq_join : countQ " JOIN " = 0 := by decide

theorem cq_on : countQ " ON " = 0 := by decide

theorem cq_select : countQ "SELECT " = 0 := by decide

theorem cq_star : countQ "*" = 0 := by decide

theorem cq_group : countQ " GROUP BY " = 0 := by decide

theorem cq_order : countQ " ORDER BY " = 0 := by decide

theorem cq_limit : countQ " LIMIT " = 0 := by decide

theorem cq_offset : countQ " OFFSET " = 0 := by decide

theorem cq_comma : countQ ", " = 0 := by decide

theorem cq_dash : countQ "-" = 0 := by decide

theorem cq_union : countQ "UNION" = 0 := by decide

theorem cq_unionall : countQ "UNION ALL" = 0 := by decide

theorem digitChar_ne_q : ∀ n < 10, digitChar n ≠ '?' := by decide

theorem countQ_natToDec (n : Nat) : countQ (natToDec n) = 0 := by
  induction n using Nat.strong_induction_on with
  | _ n ih =>
    rw [natToDec]
    split
    · rename_i h
      simp [countQ, List.count_cons, digitChar_ne_q n h]
    · rename_i h
      have ihd := ih (n / 10) (Nat.div_lt_self (by omega) (by omega))
      have hd : digitChar (n % 10) ≠ '?' := digitChar_ne_q _ (Nat.mod_lt _ (by omega))
      simp only [countQ] at ihd ⊢
      simp [List.count_append, List.count_cons, hd, ihd]

theorem countQ_intToDec (i : Int) : countQ (intToDec i) = 0 := by
  unfold intToDec
  split
  · rw [countQ_append, countQ_natToDec, cq_dash]
  · exact countQ_natToDec _

theorem countQ_goJoin :
    ∀ (l : List String), (∀ s ∈ l, countQ s = 0) → countQ (goJoin ", " l) = 0
  | [], _ => cq_empty
  | [x], h => h x (by simp)
  | x :: y :: rest, h => by
    have hrec := countQ_goJoin (y :: rest) fun s hs => h s (List.mem_cons_of_mem _ hs)
    have hx := h x (by simp)
    show countQ (x ++ ", " ++ goJoin ", " (y :: rest)) = 0
    rw [countQ_append, countQ_append, hx, hrec, cq_comma]

theorem countQ_concatAll :
    ∀ (l : List String), (∀ s ∈ l, countQ s = 0) → countQ (concatAll l) = 0
  | [], _ => cq_empty
  | x :: rest, h => by
    have hrec := countQ_concatAll rest fun s hs => h s (List.mem_cons_of_mem _ hs)
    show countQ (x ++ concatAll rest) = 0
    rw [countQ_append, h x (by simp), hrec]

theorem condWFb_parts (c : Cond) (h : condWFb c = true) :
    countQ c.column = 0 ∧ countQ c.operator = 0 ∧ countQ c.logic = 0 := by
  simp only [condWFb, Bool.and_eq_true, beq_iff_eq] at h
  exact ⟨h.1.1.1, h.1.1.2, h.1.2⟩

theorem condSQL_count (c : Cond) (h : condWFb c = true) :
    countQ (condSQL c).1 = (condSQL c).2.length := by
  obtain ⟨hc, ho, _⟩ := condWFb_parts c h
  unfold condSQL
  split
  · show countQ (c.column ++ " " ++ c.operator) = List.length ([] : List GoValue)
    simp only [countQ_append, hc, ho, cq_space, List.length_nil]
  · split
    · rename_i hop
      simp only [Bool.or_eq_true, decide_eq_true_eq] at hop
      have h4 : (!(c.operator == "IN" || c.operator == "BETWEEN") ||
          countQ c.value.render == c.params.length) = true := by
        simp only [condWFb, Bool.and_eq_true] at h
        exact h.2
      have hbeq : (c.operator == "IN" || c.operator == "BETWEEN") = true := by
        rcases hop with h1 | h1 <;> simp [h1]
      rw [hbeq] at h4
      simp only [Bool.not_true, Bool.false_or, beq_iff_eq] at h4
      show countQ (c.column ++ " " ++ c.operator ++ " " ++ c.value.render) =
        c.params.length
      simp only [countQ_append, hc, ho, cq_space, h4]
      omega
    · show countQ (c.column ++ " " ++ c.operator ++ " ?") = List.length [c.value]
      simp only [countQ_append, hc, ho, cq_space, cq_qmark, List.length_singleton]

theorem havingSQL_count (c : Cond) (h : havingWFb c = true) :
    countQ (havingSQL c).1 = (havingSQL c).2.length := by
  simp only [havingWFb, Bool.and_eq_true, beq_iff_eq] at h
  show countQ (c.column ++ " " ++ c.operator ++ " ?") = List.length [c.value]
  simp only [countQ_append, h.1.1, h.1.2, cq_space, cq_qmark, List.length_singleton]

theorem renderConds_count (item : Cond → String × List GoValue) :
    ∀ (l : List Cond) (first : Bool),
      (∀ c ∈ l, countQ (item c).1 = (item c).2.length ∧ countQ c.logic = 0) →
      countQ (renderConds item first l).1 = (renderConds item first l).2.length
  | [], first, _ => cq_empty
  | c :: rest, first, h => by
    have hc := h c (List.mem_cons_self c rest)
    have hrest := renderConds_count item rest false fun d hd =>
      h d (List.mem_cons_of_mem _ hd)
    rcases hit : item c with ⟨t, ps⟩
    rcases hr : renderConds item false rest with ⟨rt, rps⟩
    rw [hit] at hc
    rw [hr] at hrest
    dsimp only at hc hrest
    simp only [renderConds, hit, hr]
    cases first
    · show countQ (" " ++ c.logic ++ " " ++ t ++ rt) = (ps ++ rps).length
      simp only [countQ_append, hc.1, hc.2, hrest, cq_space, List.length_append]
      omega
    · show countQ ("" ++ t ++ rt) = (ps ++ rps).length
      simp only [countQ_append, hc.1, hrest, cq_empty, List.length_append]
      omega

theorem whereSQL_count (conds : List Cond) (h : ∀ c ∈ conds, condWFb c = true) :
    countQ (whereSQL conds).1 = (whereSQL conds).2.length := by
  unfold whereSQL
  split
  · exact cq_empty
  · have hrc := renderConds_count condSQL conds true fun c hc =>
      ⟨condSQL_count c (h c hc), (condWFb_parts c (h c hc)).2.2⟩
    rcases hr : renderConds condSQL true conds with ⟨t, ps⟩
    rw [hr] at hrc
    dsimp only at hrc
    show countQ (" WHERE " ++ t) = ps.length
    rw [countQ_append, hrc, cq_where]
    omega

theorem havingClause_count (conds : List Cond)
    (h : ∀ c ∈ conds, havingWFb c = true) :
    countQ (havingClause conds).1 = (havingClause conds).2.length := by
  unfold havingClause
  split
  · exact cq_empty
  · have hrc := renderConds_count havingSQL conds true fun c hc => by
      have hw := h c hc
      simp only [havingWFb, Bool.and_eq_true, beq_iff_eq] at hw
      exact ⟨havingSQL_count c (h c hc), hw.2⟩
    rcases hr : renderConds havingSQL true conds with ⟨t, ps⟩
    rw [hr] at hrc
    dsimp only at hrc
    show countQ (" HAVING " ++ t) = ps.length
    rw [countQ_append, hrc, cq_having]
    omega

theorem assembleBase_count (core : QB0) (h : coreWFb core = true) :
    countQ (assembleBase core).1 = (assembleBase core).2.length := by
  simp only [coreWFb, Bool.and_eq_true, beq_iff_eq, List.all_eq_true] at h
  obtain ⟨⟨⟨⟨⟨⟨htab, hsel⟩, hjoins⟩, hgrp⟩, hord⟩, hwhere⟩, hhav⟩ := h
  have hselect : countQ (selectSQL core) = 0 := by
    unfold selectSQL
    split
    · decide
    · rw [countQ_append, countQ_goJoin core.selectCols
        (fun s hs => by simpa using hsel s hs), cq_select]
  have hjoin : countQ (concatAll (core.joins.map joinSQL)) = 0 := by
    refine countQ_concatAll _ fun s hs => ?_
    obtain ⟨j, hj, rfl⟩ := List.mem_map.mp hs
    have hji := hjoins j hj
    simp only [Bool.and_eq_true, beq_iff_eq] at hji
    unfold joinSQL
    simp only [countQ_append, hji.1.1, hji.1.2, hji.2, cq_space, cq_join, cq_on]
  have hgroup : countQ (groupSQL core) = 0 := by
    unfold groupSQL
    split
    · exact cq_empty
    · rw [countQ_append, countQ_goJoin core.groupBy
        (fun s hs => by simpa using hgrp s hs), cq_group]
  have horder : countQ (orderSQL core) = 0 := by
    unfold orderSQL
    split
    · exact cq_empty
    · rw [countQ_append, countQ_goJoin core.orderBy
        (fun s hs => by simpa using hord s hs), cq_order]
  have hlim : countQ (limitSQL core) = 0 := by
    unfold limitSQL
    split
    · rw [countQ_append, countQ_intToDec, cq_limit]
    · exact cq_empty
  have hoff : countQ (offsetSQL core) = 0 := by
    unfold offsetSQL
    split
    · rw [countQ_append, countQ_intToDec, cq_offset]
    · exact cq_empty
  have hw := whereSQL_count core.whereConds fun c hc => by simpa using hwhere c hc
  have hh := havingClause_count core.having fun c hc => by simpa using hhav c hc
  show countQ (selectSQL core ++ " FROM " ++ core.table ++
      concatAll (core.joins.map joinSQL) ++ (whereSQL core.whereConds).1 ++
      groupSQL core ++ (havingClause core.having).1 ++ orderSQL core ++
      limitSQL core ++ offsetSQL core) =
    ((whereSQL core.whereConds).2 ++ (havingClause core.having).2).length
  simp only [countQ_append]
  rw [hselect, htab, hjoin, hgroup, horder, hlim, hoff, hw, hh, cq_from,
    List.length_append]
  omega

/-- C1 (amended): for every builder whose verbatim-rendered fragments are
free of `?` and whose `IN`/`BETWEEN` conditions carry exactly as many `?` in
their value text as extra params (`WFb`) — as every condition built by
`WhereIn`/`WhereBetween` does — a successful `ToSQL` emits exactly as many
`?` placeholders as parameters, the parameters being appended in the same
left-to-right order the placeholders are written. -/
theorem assembled_placeholders_match_params :
    ∀ (qb : QueryBuilder) (sql : String) (ps : List GoValue),
      qb.WFb = true → ToSQL qb = .ok (sql, ps) → countQ sql = ps.length
  | .mk core none uall, sql, ps, hwf, h => by
    simp only [QueryBuilder.WFb, Bool.and_true] at hwf
    simp only [ToSQL] at h
    rcases herr : core.err with _ | e
    · simp only [herr] at h
      split at h
      · simp at h
      · simp only [Except.ok.injEq] at h
        have hcount := assembleBase_count core hwf
        rw [h] at hcount
        exact hcount
    · simp [herr] at h
  | .mk core (some child) uall, sql, ps, hwf, h => by
    simp only [QueryBuilder.WFb, Bool.and_eq_true] at hwf
    simp only [ToSQL] at h
    rcases herr : core.err with _ | e
    · simp only [herr] at h
      split at h
      · simp at h
      · rcases hc : ToSQL child with e | r
        · rw [hc] at h
          simp at h
        · rcases r with ⟨usql, ups⟩
          rw [hc] at h
          have ih := assembled_placeholders_match_params child usql ups hwf.2 hc
          have hbase := assembleBase_count core hwf.1
          simp only [Except.ok.injEq, Prod.mk.injEq] at h
          rw [← h.1, ← h.2]
          cases uall <;>
            simp only [countQ_append, List.length_append, hbase, ih, cq_space,
              cq_union, cq_unionall, Bool.false_eq_true, if_false, if_true] <;>
            omega
    · simp [herr] at h

/-- C1 counterexample: `Table("users").Where("id","IN","(?)")` yields a
builder with no sticky error and a non-empty table whose `ToSQL` text
contains one `?` placeholder but whose parameter list is empty. -/
theorem placeholder_param_mismatch_cex :
    (newQueryBuilder.Table "users").bind
        (fun qb => qb.Where "id" "IN" (GoValue.str "(?)")) = some cexQB ∧
    cexQB.core.err = none ∧
    cexQB.core.table = "users" ∧
    ToSQL cexQB = .ok ("SELECT * FROM users WHERE id IN (?)", []) ∧
    countQ "SELECT * FROM users WHERE id IN (?)" = 1 ∧
    (([] : List GoValue)).length = 0 :=
  ⟨rfl, rfl, rfl, rfl, by decide, rfl⟩

@[simp]
theorem core_setCore (qb : QueryBuilder) (c : QB0) : (qb.setCore c).core = c := by
  cases qb
  rfl

theorem assembleBase_includeTrashed (core : QB0) (b : Bool) :
    assembleBase { core with includeTrashed := b } = assembleBase core := by
  rcases core with ⟨t, sc, wc, ob, gb, hv, js, lc, oc, er, it⟩
  rfl

theorem toSQL_withTrashed (qb : QueryBuilder) : ToSQL qb.WithTrashed = ToSQL qb := by
  rcases qb with ⟨core, u, a⟩
  cases u <;>
    simp only [QueryBuilder.WithTrashed, QueryBuilder.setCore, QueryBuilder.core,
      ToSQL, assembleBase_includeTrashed]

theorem toSQL_err (qb : QueryBuilder) (e : String) (h : qb.core.err = some e) :
    ToSQL qb = .error e := by
  rcases qb with ⟨core, u, a⟩
  simp only [QueryBuilder.core] at h
  cases u <;> simp [ToSQL, h]

theorem deleteSQL_err (qb : QueryBuilder) (e : String) (h : qb.core.err = some e) :
    DeleteSQL qb = .error e := by
  simp [DeleteSQL, h]

theorem insertSQL_err (qb : QueryBuilder) (e : String)
    (data : List (String × GoValue)) (h : qb.core.err = some e) :
    InsertSQL qb data = some (.error e) := by
  simp [InsertSQL, h]

theorem updateSQL_err (qb : QueryBuilder) (e : String)
    (data : List (String × GoValue)) (h : qb.core.err = some e) :
    UpdateSQL qb data = some (.error e) := by
  simp [UpdateSQL, h]

theorem count_err (qb : QueryBuilder) (e : String) (h : qb.core.err = some e) :
    (Count qb).1 = .error e := by
  have hsw : (qb.setCore { qb.core with selectCols := ["COUNT(*)"] }).core.err = some e := by
    simp [h]
  have := toSQL_err _ e hsw
  simp [Count, this]

theorem table_err_mono (qb qb' : QueryBuilder) (t : String)
    (h : qb.Table t = some qb') (hs : qb.core.err.isSome = true) :
    qb'.core.err.isSome = true := by
  unfold QueryBuilder.Table at h
  rcases hv : isValidIdentifier t with _ | (_ | _) <;>
    simp only [hv, Option.some.injEq] at h
  · exact Option.noConfusion h
  · subst h
    simp
  · subst h
    simp_all

theorem select_err_mono (qb qb' : QueryBuilder) (cols : List String)
    (h : qb.Select cols = some qb') (hs : qb.core.err.isSome = true) :
    qb'.core.err.isSome = true := by
  unfold QueryBuilder.Select at h
  rcases hv : selectColsCheck cols with _ | (_ | c) <;>
    simp only [hv, Option.some.injEq] at h
  · exact Option.noConfusion h
  · subst h
    simp_all
  · subst h
    simp

theorem where_err_mono (qb qb' : QueryBuilder) (c op : String) (v : GoValue)
    (h : qb.Where c op v = some qb') (hs : qb.core.err.isSome = true) :
    qb'.core.err.isSome = true := by
  unfold QueryBuilder.Where at h
  rcases hv : isValidIdentifier c with _ | (_ | _) <;>
    simp only [hv, Option.some.injEq] at h
  · exact Option.noConfusion h
  · subst h
    simp
  · split at h <;> (simp only [Option.some.injEq] at h; subst h; simp_all)

theorem orwhere_err_mono (qb qb' : QueryBuilder) (c op : String) (v : GoValue)
    (h : qb.OrWhere c op v = some qb') (hs : qb.core.err.isSome = true) :
    qb'.core.err.isSome = true := by
  unfold QueryBuilder.OrWhere at h
  rcases hv : isValidIdentifier c with _ | (_ | _) <;>
    simp only [hv, Option.some.injEq] at h
  · exact Option.noConfusion h
  · subst h
    simp
  · split at h <;> (simp only [Option.some.injEq] at h; subst h; simp_all)

theorem wherein_err_mono (qb qb' : QueryBuilder) (c : String) (vs : List GoValue)
    (h : qb.WhereIn c vs = some qb') (hs : qb.core.err.isSome = true) :
    qb'.core.err.isSome = true := by
  unfold QueryBuilder.WhereIn at h
  rcases hv : isValidIdentifier c with _ | (_ | _) <;>
    simp only [hv, Option.some.injEq] at h
  · exact Option.noConfusion h
  · subst h
    simp
  · subst h
    simp_all

theorem wherebetween_err_mono (qb qb' : QueryBuilder) (c : String) (a b : GoValue)
    (h : qb.WhereBetween c a b = some qb') (hs : qb.core.err.isSome = true) :
    qb'.core.err.isSome = true := by
  unfold QueryBuilder.WhereBetween at h
  rcases hv : isValidIdentifier c with _ | (_ | _) <;>
    simp only [hv, Option.some.injEq] at h
  · exact Option.noConfusion h
  · subst h
    simp
  · subst h
    simp_all

theorem wherenull_err_mono (qb qb' : QueryBuilder) (c : String)
    (h : qb.WhereNull c = some qb') (hs : qb.core.err.isSome = true) :
    qb'.core.err.isSome = true := by
  unfold QueryBuilder.WhereNull at h
  rcases hv : isValidIdentifier c with _ | (_ | _) <;>
    simp only [hv, Option.some.injEq] at h
  · exact Option.noConfusion h
  · subst h
    simp
  · subst h
    simp_all

theorem wherenotnull_err_mono (qb qb' : QueryBuilder) (c : String)
    (h : qb.WhereNotNull c = some qb') (hs : qb.core.err.isSome = true) :
    qb'.core.err.isSome = true := by
  unfold QueryBuilder.WhereNotNull at h
  rcases hv : isValidIdentifier c with _ | (_ | _) <;>
    simp only [hv, Option.some.injEq] at h
  · exact Option.noConfusion h
  · subst h
    simp
  · subst h
    simp_all

theorem addjoin_err_mono (qb qb' : QueryBuilder) (kind tl ol t o : String)
    (h : addJoin qb kind tl ol t o = some qb') (hs : qb.core.err.isSome = true) :
    qb'.core.err.isSome = true := by
  unfold addJoin at h
  rcases hv : isValidIdentifier t with _ | (_ | _) <;>
    simp only [hv, Option.some.injEq] at h
  · exact Option.noConfusion h
  · subst h
    simp
  · split at h <;> (simp only [Option.some.injEq] at h; subst h; simp_all)

theorem orderby_err_mono (qb qb' : QueryBuilder) (c d : String)
    (h : qb.OrderBy c d = some qb') (hs : qb.core.err.isSome = true) :
    qb'.core.err.isSome = true := by
  unfold QueryBuilder.OrderBy at h
  rcases hv : isValidIdentifier c with _ | (_ | _) <;>
    simp only [hv, Option.some.injEq] at h
  · exact Option.noConfusion h
  · subst h
    simp
  · split at h <;> split at h <;>
      (simp only [Option.some.injEq] at h; subst h; simp_all)

theorem groupby_err_mono (qb qb' : QueryBuilder) (cols : List String)
    (h : qb.GroupBy cols = some qb') (hs : qb.core.err.isSome = true) :
    qb'.core.err.isSome = true := by
  unfold QueryBuilder.GroupBy at h
  rcases hv : groupColsCheck cols with _ | (_ | c) <;>
    simp only [hv, Option.some.injEq] at h
  · exact Option.noConfusion h
  · subst h
    simp_all
  · subst h
    simp

theorem having_err_mono (qb qb' : QueryBuilder) (c op : String) (v : GoValue)
    (h : qb.Having c op v = some qb') (hs : qb.core.err.isSome = true) :
    qb'.core.err.isSome = true := by
  unfold QueryBuilder.Having at h
  rcases hv : isValidIdentifier c with _ | b <;> simp only [hv] at h
  · exact Option.noConfusion h
  · split at h
    · simp only [Option.some.injEq] at h
      subst h
      simp
    · split at h <;> (simp only [Option.some.injEq] at h; subst h; simp_all)

theorem onlytrashed_err_mono (qb qb' : QueryBuilder)
    (h : qb.OnlyTrashed = some qb') (hs : qb.core.err.isSome = true) :
    qb'.core.err.isSome = true :=
  wherenotnull_err_mono qb qb' "deleted_at" h hs

/-- Witness for C1 at a concrete builder: `Table("users").Where("id","=",1)`
assembles with one placeholder and one parameter. -/
theorem assembled_placeholders_match_params_witness :
    countQ "SELECT * FROM users WHERE id = ?" = [GoValue.int 1].length :=
  assembled_placeholders_match_params
    (.mk { table := "users",
           whereConds := [{ column := "id", operator := "=",
                            value := .int 1, logic := "AND" }] } none false)
    "SELECT * FROM users WHERE id = ?" [GoValue.int 1] (by decide) rfl

/-- C2 (code bug): the one-character quoted inputs make the identifier
validator evaluate the out-of-range slice `s[1:0]` — a runtime panic,
modelled as `none` — instead of returning `false` and letting the mutator
record a sticky error. -/
theorem quote_identifier_validation_panics :
    isValidIdentifier "`" = none ∧ isValidIdentifier "\"" = none ∧
    newQueryBuilder.Table "`" = none ∧ newQueryBuilder.Table "\"" = none ∧
    newQueryBuilder.WhereNull "`" = none :=
  ⟨rfl, rfl, rfl, rfl, rfl⟩

/-- C3 (code bug): for a soft-delete model, `Query().WithTrashed().ToSQL()`
still contains `deleted_at IS NULL` (as does the `OnlyTrashed` chain), and
in general `WithTrashed` does not change the assembled SQL at all — the
`includeTrashed` flag is never read by assembly. -/
theorem withTrashed_keeps_soft_delete_filter :
    ((NewModel "users").WithSoftDelete.Query).map
        (fun qb => (ToSQL qb.WithTrashed).map fun r => strContains r.1 "deleted_at IS NULL") =
      some (.ok true) ∧
    (((NewModel "users").WithSoftDelete.Query).bind fun qb => qb.OnlyTrashed).map
        (fun qb => (ToSQL qb).map fun r => strContains r.1 "deleted_at IS NULL") =
      some (.ok true) ∧
    (∀ qb : QueryBuilder, ToSQL qb.WithTrashed = ToSQL qb) :=
  ⟨rfl, rfl, toSQL_withTrashed⟩

/-- C4 counterexample: after two failing mutators the surfaced error is the
second one, not the first — the sticky error is replaced, refuting "fails
with that same first error". -/
theorem sticky_error_overwritten_cex :
    ((newQueryBuilder.Where "1bad" "=" (GoValue.int 1)).bind
        (fun qb => qb.OrWhere "2bad" "=" (GoValue.int 2))).map ToSQL =
      some (.error "invalid column name in OrWhere: \"2bad\"") ∧
    (newQueryBuilder.Where "1bad" "=" (GoValue.int 1)).map (fun qb => qb.core.err) =
      some (some "invalid column name in WHERE: \"1bad\"") ∧
    ("invalid column name in OrWhere: \"2bad\"" : String) ≠
      "invalid column name in WHERE: \"1bad\"" :=
  ⟨rfl, rfl, by decide⟩

/-- C4 (amended): the sticky error is set by failing mutators — a later
failing mutator overwrites the recorded message — and is never cleared by
any mutator; once set, every terminal call fails with the currently
recorded error. -/
theorem sticky_error_surfaces_latest :
    (∀ (qb : QueryBuilder) (e : String), qb.core.err = some e →
      ToSQL qb = .error e ∧ DeleteSQL qb = .error e ∧ (Count qb).1 = .error e ∧
      (∀ data, InsertSQL qb data = some (.error e)) ∧
      (∀ data, UpdateSQL qb data = some (.error e))) ∧
    (∀ qb qb' t, Table qb t = some qb' →
      qb.core.err.isSome = true → qb'.core.err.isSome = true) ∧
    (∀ qb qb' cols, Select qb cols = some qb' →
      qb.core.err.isSome = true → qb'.core.err.isSome = true) ∧
    (∀ qb qb' c op v, Where qb c op v = some qb' →
      qb.core.err.isSome = true → qb'.core.err.isSome = true) ∧
    (∀ qb qb' c op v, OrWhere qb c op v = some qb' →
      qb.core.err.isSome = true → qb'.core.err.isSome = true) ∧
    (∀ qb qb' c vs, WhereIn qb c vs = some qb' →
      qb.core.err.isSome = true → qb'.core.err.isSome = true) ∧
    (∀ qb qb' c a b, WhereBetween qb c a b = some qb' →
      qb.core.err.isSome = true → qb'.core.err.isSome = true) ∧
    (∀ qb qb' c, WhereNull qb c = some qb' →
      qb.core.err.isSome = true → qb'.core.err.isSome = true) ∧
    (∀ qb qb' c, WhereNotNull qb c = some qb' →
      qb.core.err.isSome = true → qb'.core.err.isSome = true) ∧
    (∀ qb qb' t o, Join qb t o = some qb' →
      qb.core.err.isSome = true → qb'.core.err.isSome = true) ∧
    (∀ qb qb' t o, LeftJoin qb t o = some qb' →
      qb.core.err.isSome = true → qb'.core.err.isSome = true) ∧
    (∀ qb qb' t o, RightJoin qb t o = some qb' →
      qb.core.err.isSome = true → qb'.core.err.isSome = true) ∧
    (∀ qb qb' c d, OrderBy qb c d = some qb' →
      qb.core.err.isSome = true → qb'.core.err.isSome = true) ∧
    (∀ qb qb' cols, GroupBy qb cols = some qb' →
      qb.core.err.isSome = true → qb'.core.err.isSome = true) ∧
    (∀ qb qb' c op v, Having qb c op v = some qb' →
      qb.core.err.isSome = true → qb'.core.err.isSome = true) ∧
    (∀ qb qb', OnlyTrashed qb = some qb' →
      qb.core.err.isSome = true → qb'.core.err.isSome = true) ∧
    (∀ (qb : QueryBuilder) (n : Int), (Limit qb n).core.err = qb.core.err) ∧
    (∀ (qb : QueryBuilder) (n : Int), (Offset qb n).core.err = qb.core.err) ∧
    (∀ (qb q : QueryBuilder), (Union qb q).core.err = qb.core.err) ∧
    (∀ (qb q : QueryBuilder), (UnionAll qb q).core.err = qb.core.err) ∧
    (∀ qb : QueryBuilder, (WithTrashed qb).core.err = qb.core.err) ∧
    (∀ (qb : QueryBuilder) (p pp : Int), (Paginate qb p pp).core.err = qb.core.err) :=
  ⟨fun qb e he =>
      ⟨toSQL_err qb e he, deleteSQL_err qb e he, count_err qb e he,
       fun data => insertSQL_err qb e data he, fun data => updateSQL_err qb e data he⟩,
   table_err_mono, select_err_mono, where_err_mono, orwhere_err_mono,
   wherein_err_mono, wherebetween_err_mono, wherenull_err_mono, wherenotnull_err_mono,
   fun qb qb' t o => addjoin_err_mono qb qb' "INNER" "Join" "JOIN" t o,
   fun qb qb' t o => addjoin_err_mono qb qb' "LEFT" "LeftJoin" "LEFT JOIN" t o,
   fun qb qb' t o => addjoin_err_mono qb qb' "RIGHT" "RightJoin" "RIGHT JOIN" t o,
   orderby_err_mono, groupby_err_mono, having_err_mono, onlytrashed_err_mono,
   fun qb n => by cases qb; rfl, fun qb n => by cases qb; rfl,
   fun qb q => by cases qb; rfl, fun qb q => by cases qb; rfl,
   fun qb => by cases qb; rfl, fun qb p pp => by cases qb; rfl⟩

/-- Witness for the C4 theorem at a concrete errored builder: every terminal
fails with the recorded error. -/
theorem sticky_error_surfaces_latest_witness :
    ToSQL (QueryBuilder.mk { table := "users", err := some "boom" } none false) =
      .error "boom" :=
  (sticky_error_surfaces_latest.1
    (QueryBuilder.mk { table := "users", err := some "boom" } none false) "boom" rfl).1

/-- C5 (confirmed): the two documented chains produce exactly the stated SQL
and parameters, and in general the first condition of a WHERE list is
rendered without its logic keyword. -/
theorem basic_where_chains_exact_sql :
    (((newQueryBuilder.Table "users").bind
          (fun qb => qb.Where "id" "=" (GoValue.int 1))).bind
        (fun qb => qb.OrWhere "id" "=" (GoValue.int 2))).map ToSQL =
      some (.ok ("SELECT * FROM users WHERE id = ? OR id = ?",
        [GoValue.int 1, GoValue.int 2])) ∧
    ((newQueryBuilder.Table "users").bind
        (fun qb => qb.WhereIn "id" [GoValue.int 1, GoValue.int 2, GoValue.int 3])).map
        ToSQL =
      some (.ok ("SELECT * FROM users WHERE id IN (?, ?, ?)",
        [GoValue.int 1, GoValue.int 2, GoValue.int 3])) ∧
    (∀ (item : Cond → String × List GoValue) (c : Cond) (rest : List Cond),
      (renderConds item true (c :: rest)).1 =
        (item c).1 ++ (renderConds item false rest).1) := by
  refine ⟨rfl, rfl, fun item c rest => ?_⟩
  rcases h1 : item c with ⟨t, ps⟩
  rcases h2 : renderConds item false rest with ⟨rt, rps⟩
  simp only [renderConds, h1, h2]
  apply String.ext
  simp [String.data_append]

/-- C6 (confirmed): the transaction coordinator's four outcomes — missing
connection fails with the configuration error before beginning; callback
failure with successful rollback returns the callback's error unchanged;
callback failure with failed rollback returns the error wrapping both; and
callback success returns nil or the commit failure. -/
theorem transaction_outcomes :
    (∀ b f r c : Option String,
      Transaction false b f r c =
        some "cannot start transaction: no database connection") ∧
    (∀ (err : String) (c : Option String),
      Transaction true none (some err) none c = some err) ∧
    (∀ (err rbErr : String) (c : Option String),
      Transaction true none (some err) (some rbErr) c =
        some ("rollback failed: " ++ rbErr ++ " (original error: " ++ err ++ ")")) ∧
    (∀ r : Option String, Transaction true none none r none = none) ∧
    (∀ (r : Option String) (ce : String),
      Transaction true none none r (some ce) =
        some ("failed to commit transaction: " ++ ce)) :=
  ⟨fun _ _ _ _ => rfl, fun _ _ => rfl, fun _ _ _ => rfl, fun _ => rfl, fun _ _ => rfl⟩

/-- C7 counterexample: on an assembly failure (here: no table set) `Count`
returns the error with `selectCols` left as `COUNT(*)` instead of the
original empty list, so the builder is not restored on every error path. -/
theorem count_leaves_swapped_select_cex :
    (Count newQueryBuilder).2.core.selectCols = ["COUNT(*)"] ∧
    newQueryBuilder.core.selectCols = [] ∧
    (Count newQueryBuilder).1 = .error "table name is required" :=
  ⟨rfl, rfl, rfl⟩

/-- C7 (amended): whenever assembly of the swapped builder succeeds, `Count`
restores the original select columns and leaves every builder field exactly
as before the call; on assembly failure the builder is left with
`selectCols = [COUNT(*)]`. -/
theorem count_restores_select_on_success (qb : QueryBuilder)
    (h : exceptIsOk
      (ToSQL (qb.setCore { qb.core with selectCols := ["COUNT(*)"] })) = true) :
    (Count qb).2 = qb := by
  unfold Count
  rcases ht : ToSQL (qb.setCore { qb.core with selectCols := ["COUNT(*)"] })
    with e | r
  · rw [ht] at h
    simp [exceptIsOk] at h
  · simp only [ht]
    rcases qb with ⟨core, u, a⟩
    rcases core with ⟨t, sc, wc, ob, gb, hv, js, lc, oc, er, it⟩
    rfl

/-- Witness for the C7 theorem at a concrete builder with a table. -/
theorem count_restores_select_on_success_witness :
    (Count (QueryBuilder.mk { table := "users" } none false)).2 =
      QueryBuilder.mk { table := "users" } none false :=
  count_restores_select_on_success
    (QueryBuilder.mk { table := "users" } none false) (by rfl)

/-- C8 (confirmed): a non-positive chunk size makes `Chunk` (and `ChunkByID`)
fail immediately with the "chunk size must be positive" error, with no
statement executed and no callback invocation; `ChunkByID` with a positive
size but an invalid key column fails with the invalid-column error before
issuing any query. -/
theorem chunk_guard_rejects_nonpositive_size :
    (∀ {α : Type} (qb : QueryBuilder) (size : Int) (allRows : List α)
        (cb : List α → Bool), size ≤ 0 →
      Chunk qb size allRows cb = ⟨some "chunk size must be positive", 0, []⟩) ∧
    (∀ (qb : QueryBuilder) (size : Int) (column : String) (allRows : List Int)
        (cb : List Int → Bool) (fuel : Nat), size ≤ 0 →
      ChunkByID qb size column allRows cb fuel =
        .ok ⟨some "chunk size must be positive", 0, []⟩) ∧
    (∀ (qb : QueryBuilder) (size : Int) (column : String) (allRows : List Int)
        (cb : List Int → Bool) (fuel : Nat), 0 < size →
      isValidIdentifier column = some false →
      ChunkByID qb size column allRows cb fuel =
        .ok ⟨some ("invalid column name: " ++ goQuote column), 0, []⟩) := by
  refine ⟨fun qb size allRows cb h => ?_, fun qb size column allRows cb fuel h => ?_,
    fun qb size column allRows cb fuel h hval => ?_⟩
  · simp [Chunk, h]
  · simp [ChunkByID, h]
  · have hns : ¬size ≤ 0 := by omega
    simp [ChunkByID, hns, hval]

/-- Witness for the C8 theorem at sizes 0 and -1 and an invalid column. -/
theorem chunk_guard_rejects_nonpositive_size_witness :
    Chunk newQueryBuilder 0 ([] : List Nat) (fun _ => true) =
      ⟨some "chunk size must be positive", 0, []⟩ ∧
    Chunk newQueryBuilder (-1) ([] : List Nat) (fun _ => true) =
      ⟨some "chunk size must be positive", 0, []⟩ ∧
    ChunkByID newQueryBuilder (-1) "id" [] (fun _ => true) 5 =
      .ok ⟨some "chunk size must be positive", 0, []⟩ ∧
    ChunkByID (QueryBuilder.mk { table := "users" } none false) 2 "1bad" []
        (fun _ => true) 5 =
      .ok ⟨some ("invalid column name: " ++ goQuote "1bad"), 0, []⟩ :=
  ⟨chunk_guard_rejects_nonpositive_size.1 newQueryBuilder 0 [] (fun _ => true)
     (by decide),
   chunk_guard_rejects_nonpositive_size.1 newQueryBuilder (-1) [] (fun _ => true)
     (by decide),
   chunk_guard_rejects_nonpositive_size.2.1 newQueryBuilder (-1) "id" []
     (fun _ => true) 5 (by decide),
   chunk_guard_rejects_nonpositive_size.2.2
     (QueryBuilder.mk { table := "users" } none false) 2 "1bad" [] (fun _ => true) 5
     (by decide) (by rfl)⟩

/-- C9 (confirmed): `Where` with operator `IN` or `BETWEEN` (both accepted
by the whitelist) stores the value with no extra params, and assembly
renders the value itself into the SQL text, contributing no parameter. -/
theorem where_in_between_literal_value (qb : QueryBuilder) (c : String) (v : GoValue)
    (h : isValidIdentifier c = some true) :
    Where qb c "IN" v = some (qb.setCore { qb.core with
      whereConds := qb.core.whereConds ++
        [{ column := c, operator := "IN", value := v, logic := "AND",
           params := [] }] }) ∧
    Where qb c "BETWEEN" v = some (qb.setCore { qb.core with
      whereConds := qb.core.whereConds ++
        [{ column := c, operator := "BETWEEN", value := v, logic := "AND",
           params := [] }] }) ∧
    condSQL { column := c, operator := "IN", value := v, logic := "AND",
              params := [] } = (c ++ " IN " ++ v.render, []) ∧
    condSQL { column := c, operator := "BETWEEN", value := v, logic := "AND",
              params := [] } = (c ++ " BETWEEN " ++ v.render, []) := by
  refine ⟨?_, ?_, ?_, ?_⟩
  · simp [QueryBuilder.Where, h, show isValidOperator "IN" = true from rfl]
  · simp [QueryBuilder.Where, h, show isValidOperator "BETWEEN" = true from rfl]
  · show (c ++ " " ++ "IN" ++ " " ++ v.render, ([] : List GoValue)) =
      (c ++ " IN " ++ v.render, [])
    simp only [Prod.mk.injEq, and_true]
    apply String.ext
    simp [String.data_append, show (" " : String).data = [' '] from rfl,
      show ("IN" : String).data = ['I', 'N'] from rfl,
      show (" IN " : String).data = [' ', 'I', 'N', ' '] from rfl]
  · show (c ++ " " ++ "BETWEEN" ++ " " ++ v.render, ([] : List GoValue)) =
      (c ++ " BETWEEN " ++ v.render, [])
    simp only [Prod.mk.injEq, and_true]
    apply String.ext
    simp [String.data_append, show (" " : String).data = [' '] from rfl,
      show ("BETWEEN" : String).data = ['B', 'E', 'T', 'W', 'E', 'E', 'N'] from rfl,
      show (" BETWEEN " : String).data =
        [' ', 'B', 'E', 'T', 'W', 'E', 'E', 'N', ' '] from rfl]

/-- Witness for the C9 theorem at column `id` and the string value `(1, 2)`. -/
theorem where_in_between_literal_value_witness :
    condSQL { column := "id", operator := "IN", value := GoValue.str "(1, 2)",
              logic := "AND", params := [] } = ("id" ++ " IN " ++ "(1, 2)", []) :=
  (where_in_between_literal_value newQueryBuilder "id" (GoValue.str "(1, 2)")
    (by rfl)).2.2.1

theorem goWrap64_eq_self (i : Int) (h1 : -9223372036854775808 ≤ i)
    (h2 : i ≤ 9223372036854775807) : goWrap64 i = i := by
  unfold goWrap64
  rw [Int.emod_eq_of_lt (by omega) (by omega)]
  omega

/-- C10 counterexample: page = 2^62 + 1 and perPage = 16 are representable
Go ints on which neither clamp fires, the mathematical product
(page-1)*perPage = 2^66 overflows Go's 64-bit `int`, and the stored offset
is the wrapped value 0, not the product. -/
theorem paginate_overflow_cex :
    (Paginate newQueryBuilder 4611686018427387905 16).core.offsetCount = 0 ∧
    ((4611686018427387905 : Int) - 1) * 16 = 73786976294838206464 ∧
    (Paginate newQueryBuilder 4611686018427387905 16).core.offsetCount ≠
      ((4611686018427387905 : Int) - 1) * 16 ∧
    (4611686018427387905 : Int) ≤ 9223372036854775807 := by
  refine ⟨?_, by norm_num, ?_, by norm_num⟩
  · show goWrap64 (((4611686018427387905 : Int) - 1) * 16) = 0
    unfold goWrap64
    decide
  · show goWrap64 (((4611686018427387905 : Int) - 1) * 16) ≠ _
    unfold goWrap64
    decide

/-- C10 (amended): `Paginate` clamps the page to 1 and the page size to the
default 15 when below 1, sets the limit to the effective page size and the
offset to the 64-bit wrapped value of (page-1)*perPage — equal to the exact
product whenever that product does not overflow Go's `int` — and changes no
other builder field; in particular it never records an error. -/
theorem paginate_sets_limit_offset (qb : QueryBuilder) (page perPage : Int) :
    (Paginate qb page perPage).core.limitCount =
      (if perPage < 1 then 15 else perPage) ∧
    (Paginate qb page perPage).core.offsetCount =
      goWrap64 (((if page < 1 then 1 else page) - 1) *
        (if perPage < 1 then 15 else perPage)) ∧
    (-9223372036854775808 ≤
        ((if page < 1 then 1 else page) - 1) * (if perPage < 1 then 15 else perPage) →
      ((if page < 1 then 1 else page) - 1) * (if perPage < 1 then 15 else perPage) ≤
        9223372036854775807 →
      (Paginate qb page perPage).core.offsetCount =
        ((if page < 1 then 1 else page) - 1) * (if perPage < 1 then 15 else perPage)) ∧
    (Paginate qb page perPage).core.err = qb.core.err ∧
    (Paginate qb page perPage).core.table = qb.core.table ∧
    (Paginate qb page perPage).core.selectCols = qb.core.selectCols ∧
    (Paginate qb page perPage).core.whereConds = qb.core.whereConds ∧
    (Paginate qb page perPage).core.orderBy = qb.core.orderBy ∧
    (Paginate qb page perPage).core.groupBy = qb.core.groupBy ∧
    (Paginate qb page perPage).core.having = qb.core.having ∧
    (Paginate qb page perPage).core.joins = qb.core.joins ∧
    (Paginate qb page perPage).core.includeTrashed = qb.core.includeTrashed ∧
    (Paginate qb page perPage).unionQuery = qb.unionQuery ∧
    (Paginate qb page perPage).unionAll = qb.unionAll := by
  rcases qb with ⟨core, u, a⟩
  refine ⟨rfl, rfl, fun h1 h2 => ?_, rfl, rfl, rfl, rfl, rfl, rfl, rfl, rfl, rfl, rfl, rfl⟩
  exact goWrap64_eq_self _ h1 h2

/-- Witness for the C10 theorem at page 2, perPage 10 (no clamp fires and
the product does not overflow): the stored offset is the exact product. -/
theorem paginate_sets_limit_offset_witness :
    (Paginate newQueryBuilder 2 10).core.offsetCount = 10 := by
  have h := (paginate_sets_limit_offset newQueryBuilder 2 10).2.2.1
    (by norm_num) (by norm_num)
  simpa using h

end Tjo
